import Mathlib

/-!
Shallow embedding of `client/client_actions/admin.py` (GRR client admin
actions) and proofs about its action behaviours: config update/read,
kill, fault-injection actions, stats reporting, and well-known-session
addressed messages.
-/

namespace GrrAdmin

/-- A configuration field name (a protobuf field name, a string). -/
abbrev FieldName := String

/-- A configuration value.  The GRRConfig fields carry scalar protobuf
values (integers, strings, booleans); this inductive covers them. -/
inductive Value
  | int (n : Int)
  | str (s : String)
  | bool (b : Bool)
deriving DecidableEq, Repr

/-- The in-memory global configuration `conf.FLAGS`: a partial map from
field name to value (`none` = the flag object has no such attribute,
so `hasattr` is false). -/
def Flags := FieldName → Option Value

/-- `setattr conf.FLAGS name value`. -/
def setattr (f : Flags) (name : FieldName) (v : Value) : Flags :=
  fun n => if n = name then some v else f n

theorem setattr_same (f : Flags) (name : FieldName) (v : Value) :
    setattr f name v name = some v := by
  simp [setattr]

theorem setattr_other (f : Flags) (name n : FieldName) (v : Value) (h : n ≠ name) :
    setattr f name v n = f n := by
  simp [setattr, h]

namespace UpdateConfig

/-- `UpdateConfig.UPDATEABLE_FIELDS` from the source: the fixed whitelist
of remotely updatable configuration fields. -/
def UPDATEABLE_FIELDS : List FieldName :=
  ["compression",
   "foreman_check_frequency",
   "location",
   "max_post_size",
   "max_out_queue",
   "poll_min",
   "poll_max",
   "poll_slew",
   "rss_max",
   "verbose"]

/-- The state accumulated by the field loop of `UpdateConfig.Run`:
the mutated `conf.FLAGS`, the `updated_keys` list and the
`disallowed_fields` list (both built in request order). -/
structure LoopResult where
  flags : Flags
  updated_keys : List FieldName
  disallowed_fields : List FieldName

/-- The `for field, value in arg.ListFields()` loop of `UpdateConfig.Run`:
whitelisted fields are written to `conf.FLAGS` and recorded in
`updated_keys`; any other field is recorded in `disallowed_fields` and
processing continues with the remaining fields. -/
def applyFields : List (FieldName × Value) → Flags → LoopResult
  | [], flags => ⟨flags, [], []⟩
  | (name, v) :: rest, flags =>
    if name ∈ UPDATEABLE_FIELDS then
      let r := applyFields rest (setattr flags name v)
      ⟨r.flags, name :: r.updated_keys, r.disallowed_fields⟩
    else
      let r := applyFields rest flags
      ⟨r.flags, r.updated_keys, name :: r.disallowed_fields⟩

/-- A Python exception kind relevant to `UpdateConfig.Run`: the
`except (IOError, OSError)` clause catches the first two; anything
else would propagate. -/
inductive Exn
  | ioError
  | osError
  | other
deriving DecidableEq, Repr

/-- The outcome of the `conf.PARSER.UpdateConfig(updated_keys)`
persistence call: success, or a raised exception. -/
inductive PersistOutcome
  | ok
  | error (e : Exn)
deriving DecidableEq, Repr

/-- The observable outcome of one `UpdateConfig.Run` invocation. -/
structure RunResult where
  flags : Flags
  persist_arg : List FieldName
  warned : List FieldName
  raised : Option Exn

/-- `UpdateConfig.Run`: apply the whitelisted fields to `conf.FLAGS`,
log a warning naming the disallowed fields when there are any, then
call `conf.PARSER.UpdateConfig(updated_keys)` inside a
`try/except (IOError, OSError): pass` block. -/
def Run (fields : List (FieldName × Value)) (flags : Flags)
    (persist : PersistOutcome) : RunResult :=
  let r := applyFields fields flags
  { flags := r.flags
    persist_arg := r.updated_keys
    warned := r.disallowed_fields
    raised :=
      match persist with
      | .ok => none
      | .error .ioError => none
      | .error .osError => none
      | .error .other => some .other }

end UpdateConfig

namespace GetConfig

/-- Modelled from the spec: the field descriptor of `jobs_pb2.GRRConfig`
(its proto definition is not part of this source tree).  The spec's
fixed whitelist of configuration fields (compression, check-frequency,
network location, max outbound payload size, max outbound queue size,
poll min/max/slew, resident-memory ceiling, verbosity) names the
GRRConfig fields this claim set touches. -/
def descriptorFields : List FieldName := UpdateConfig.UPDATEABLE_FIELDS

/-- The body of `GetConfig.Run`: for each descriptor field of the output
GRRConfig, copy the value from `conf.FLAGS` when `hasattr` holds. -/
def buildConfig (flags : Flags) : List (FieldName × Value) :=
  descriptorFields.filterMap fun f => (flags f).map fun v => (f, v)

end GetConfig

/-! ## Messages and the reply channel -/

/-- Modelled from the spec: the message priority constants of
`jobs_pb2.GrrMessage` (the proto definition is not part of this source
tree).  The spec orders them LOW < NORMAL < HIGH, with `HIGH + 1` used
as a queue-jump above HIGH. -/
def LOW_PRIORITY : Nat := 0

/-- Modelled from the spec: see `LOW_PRIORITY`. -/
def NORMAL_PRIORITY : Nat := 1

/-- Modelled from the spec: see `LOW_PRIORITY`. -/
def HIGH_PRIORITY : Nat := 2

/-- `jobs_pb2.GrrMessage` message types used by this file. -/
inductive MessageType
  | MESSAGE
  | STATUS
deriving DecidableEq, Repr

/-- `jobs_pb2.GrrStatus.status` values used by this file. -/
inductive GrrStatusCode
  | OK
deriving DecidableEq, Repr

/-- Rolling CPU usage samples held by the worker's stats collector:
`(timestamp, user, system, percent)` tuples. -/
abbrev CpuSampleIn := Nat × Nat × Nat × Nat

/-- Rolling I/O samples held by the worker's stats collector:
`(timestamp, read_bytes, write_bytes)` tuples. -/
abbrev IoSampleIn := Nat × Nat × Nat

/-- A `jobs_pb2.ClientStats.cpu_samples` entry. -/
structure CpuSample where
  timestamp : Nat
  user_cpu_time : Nat
  system_cpu_time : Nat
  cpu_percent : Nat
deriving DecidableEq, Repr

/-- A `jobs_pb2.ClientStats.io_samples` entry. -/
structure IoSample where
  timestamp : Nat
  read_bytes : Nat
  write_bytes : Nat
deriving DecidableEq, Repr

/-- The `jobs_pb2.ClientStats` reply payload assembled by
`GetClientStats.Run`. -/
structure ClientStats where
  RSS_size : Nat
  VMS_size : Nat
  memory_percent : Nat
  bytes_received : Nat
  bytes_sent : Nat
  create_time : Nat
  boot_time : Nat
  cpu_samples : List CpuSample
  io_samples : List IoSample
deriving DecidableEq, Repr

/-- The `jobs_pb2.ClientInformation` payload (built from the
`client_config` build constants). -/
structure ClientInformation where
  client_name : String
  client_version : Nat
  build_time : String
deriving DecidableEq, Repr

/-- The `jobs_pb2.StartupInfo` payload. -/
structure StartupInfo where
  client_info : ClientInformation
  boot_time : Nat
deriving DecidableEq, Repr

/-- The payload of an outbound message: one constructor per protobuf
type this file sends. -/
inductive Payload
  | printStr (s : String)
  | dataBlob (s : String)
  | uname (system node release version machine : String)
  | grrStatus (status : GrrStatusCode)
  | grrConfig (fields : List (FieldName × Value))
  | clientInformation (info : ClientInformation)
  | clientStats (stats : ClientStats)
  | startupInfo (info : StartupInfo)
deriving DecidableEq, Repr

/-- An outbound reply message, as handed to the worker's reply channel. -/
structure Message where
  session_id : String
  request_id : Nat
  response_id : Nat
  priority : Nat
  message_type : MessageType
  require_fastpoll : Bool
  ttl : Option Nat
  payload : Payload
deriving DecidableEq, Repr

/-- The request that triggered an action: the session, request id, and
the response id the next `SendReply` of this action will carry. -/
structure RequestCtx where
  session_id : String
  request_id : Nat
  response_id : Nat
deriving DecidableEq, Repr

/-- `self.grr_worker.SendReply(...)` with every field given explicitly,
as `GetClientStatsAuto.Send` and `SendStartupInfo.Run` call it.
Modelled from the spec: the worker stamps the message with exactly the
arguments given and preserves the ttl unmodified (the worker module is
not part of this source tree). -/
def GrrWorker.SendReply (payload : Payload) (session_id : String)
    (response_id : Nat) (request_id : Nat) (priority : Nat)
    (message_type : MessageType) (require_fastpoll : Bool)
    (ttl : Option Nat) : Message :=
  { session_id := session_id
    request_id := request_id
    response_id := response_id
    priority := priority
    message_type := message_type
    require_fastpoll := require_fastpoll
    ttl := ttl
    payload := payload }

/-- `ActionPlugin.SendReply` with an explicit message type and priority
(the form `Kill.Run` uses).  Modelled from the spec: a normally
addressed reply inherits session and request id from the triggering
request and carries no ttl (the `actions` base module is not part of
this source tree). -/
def ActionPlugin.SendReply (ctx : RequestCtx) (payload : Payload)
    (message_type : MessageType) (priority : Nat) : Message :=
  { session_id := ctx.session_id
    request_id := ctx.request_id
    response_id := ctx.response_id
    priority := priority
    message_type := message_type
    require_fastpoll := true
    ttl := none
    payload := payload }

/-- `ActionPlugin.SendReply` with the default message type and priority.
Modelled from the spec: ordinary replies are MESSAGE-typed, travel as
normal traffic (NORMAL priority — the Kill queue-jump is described as
overtaking queued normal traffic) and require expedited transport
(the Auto stats variant is described as relaxing that requirement). -/
def ActionPlugin.SendReplyDefault (ctx : RequestCtx) (payload : Payload) : Message :=
  ActionPlugin.SendReply ctx payload MessageType.MESSAGE NORMAL_PRIORITY

/-- An observable step taken by an action while running. -/
inductive Event
  | send (m : Message)
  | sleep (seconds : Nat)
  | spin (seconds : Nat)
  | alloc (bytes : Nat)
  | exit (code : Nat)
deriving DecidableEq, Repr

/-- The messages an action handed to the reply channel, in order. -/
def sentMessages : List Event → List Message
  | [] => []
  | .send m :: rest => m :: sentMessages rest
  | _ :: rest => sentMessages rest

/-! ## The actions -/

/-- `Echo.Run`: `self.SendReply(args)` with the input `PrintStr`. -/
def Echo.Run (ctx : RequestCtx) (args : String) : List Event :=
  [.send (ActionPlugin.SendReplyDefault ctx (.printStr args))]

/-- `GetHostname.Run`: reply with `socket.gethostname()`. -/
def GetHostname.Run (ctx : RequestCtx) (hostname : String) : List Event :=
  [.send (ActionPlugin.SendReplyDefault ctx (.dataBlob hostname))]

/-- The five components of `platform.uname()`. -/
structure UnameResult where
  system : String
  node : String
  release : String
  version : String
  machine : String
deriving DecidableEq, Repr

/-- `GetPlatformInfo.Run`: reply with the `platform.uname()` fields. -/
def GetPlatformInfo.Run (ctx : RequestCtx) (u : UnameResult) : List Event :=
  [.send (ActionPlugin.SendReplyDefault ctx
    (.uname u.system u.node u.release u.version u.machine))]

/-- `Kill.Run`: queue one OK status reply with
`message_type=STATUS, priority=HIGH_PRIORITY + 1`, sleep 10 seconds to
let the http thread drain, then `os._exit(242)`. -/
def Kill.Run (ctx : RequestCtx) : List Event :=
  [.send (ActionPlugin.SendReply ctx (.grrStatus .OK)
      MessageType.STATUS (HIGH_PRIORITY + 1)),
   .sleep 10,
   .exit 242]

/-- Python `x or d` on a protobuf integer: an unset field reads as 0,
and 0 is falsy, so 0 selects the default. -/
def pyOr (x d : Nat) : Nat := if x = 0 then d else x

/-- `Hang.Run`: `time.sleep(arg.integer or 6000)`; no reply. -/
def Hang.Run (integer : Nat) : List Event :=
  [.sleep (pyOr integer 6000)]

/-- `BusyHang.Run`: busy-wait until `time.time() + (arg.integer or 5)`;
no reply. -/
def BusyHang.Run (integer : Nat) : List Event :=
  [.spin (pyOr integer 5)]

/-- `Bloat.Run`: append `arg.integer or 1024` one-megabyte (1048576
byte) strings to a list, then sleep 60 seconds; no reply. -/
def Bloat.Run (integer : Nat) : List Event :=
  List.replicate (pyOr integer 1024) (.alloc 1048576) ++ [.sleep 60]

/-- `GetConfig.Run`: reply with the GRRConfig assembled from
`conf.FLAGS`. -/
def GetConfig.Run (ctx : RequestCtx) (flags : Flags) : List Event :=
  [.send (ActionPlugin.SendReplyDefault ctx (.grrConfig (GetConfig.buildConfig flags)))]

/-- The `client_config` build constants. -/
structure ClientConfig where
  GRR_CLIENT_NAME : String
  GRR_CLIENT_VERSION : Nat
  GRR_CLIENT_BUILDTIME : String
deriving DecidableEq, Repr

/-- `GetClientInfo.Run`: reply with the `client_config` build identity. -/
def GetClientInfo.Run (ctx : RequestCtx) (cfg : ClientConfig) : List Event :=
  [.send (ActionPlugin.SendReplyDefault ctx
    (.clientInformation ⟨cfg.GRR_CLIENT_NAME, cfg.GRR_CLIENT_VERSION,
                         cfg.GRR_CLIENT_BUILDTIME⟩))]

/-- The process/worker state `GetClientStats.Run` reads: psutil process
figures, the stats counters, boot time, and the worker's stats
collector buffers. -/
structure ProcState where
  rss : Nat
  vms : Nat
  memory_percent : Nat
  bytes_received : Nat
  bytes_sent : Nat
  create_time : Nat
  boot_time : Nat
  cpu_samples : List CpuSampleIn
  io_samples : List IoSampleIn
deriving DecidableEq, Repr

/-- The body of `GetClientStats.Run`: assemble the ClientStats response
from the process state and the stats collector's sample buffers
(timestamps scaled by 1e6 to microseconds). -/
def GetClientStats.buildResponse (st : ProcState) : ClientStats :=
  { RSS_size := st.rss
    VMS_size := st.vms
    memory_percent := st.memory_percent
    bytes_received := st.bytes_received
    bytes_sent := st.bytes_sent
    create_time := st.create_time * 1000000
    boot_time := st.boot_time * 1000000
    cpu_samples := st.cpu_samples.map fun s =>
      ⟨s.1 * 1000000, s.2.1, s.2.2.1, s.2.2.2⟩
    io_samples := st.io_samples.map fun s =>
      ⟨s.1 * 1000000, s.2.1, s.2.2⟩ }

/-- `GetClientStats.Send`: `self.SendReply(response)` — the normally
addressed variant. -/
def GetClientStats.Send (ctx : RequestCtx) (response : ClientStats) : Message :=
  ActionPlugin.SendReplyDefault ctx (.clientStats response)

/-- `GetClientStatsAuto.Send`: the override that routes the same
response to the well-known stats session via the worker. -/
def GetClientStatsAuto.Send (response : ClientStats) : Message :=
  GrrWorker.SendReply (.clientStats response) "W:Stats" 0 0
    LOW_PRIORITY MessageType.MESSAGE false none

/-- `GetClientStats.Run`: build the response, then `self.Send` it. -/
def GetClientStats.Run (ctx : RequestCtx) (st : ProcState) : List Event :=
  [.send (GetClientStats.Send ctx (GetClientStats.buildResponse st))]

/-- `GetClientStatsAuto.Run`: inherited from `GetClientStats` — the same
response build, sent through the overridden `Send`. -/
def GetClientStatsAuto.Run (ctx : RequestCtx) (st : ProcState) : List Event :=
  [.send (GetClientStatsAuto.Send (GetClientStats.buildResponse st))]

/-- `SendStartupInfo.well_known_session_id`. -/
def SendStartupInfo.well_known_session_id : String := "W:Startup"

/-- `SendStartupInfo.Run`: build a StartupInfo from the `client_config`
constants and the boot time, and hand it to the worker addressed to the
well-known startup session with the given ttl. -/
def SendStartupInfo.Run (ctx : RequestCtx) (cfg : ClientConfig)
    (boot_time : Nat) (ttl : Option Nat) : List Event :=
  [.send (GrrWorker.SendReply
    (.startupInfo
      ⟨⟨cfg.GRR_CLIENT_NAME, cfg.GRR_CLIENT_VERSION, cfg.GRR_CLIENT_BUILDTIME⟩,
       boot_time * 1000000⟩)
    SendStartupInfo.well_known_session_id 0 0
    LOW_PRIORITY MessageType.MESSAGE false ttl)]

/-! ## Helper lemmas about the UpdateConfig field loop -/

namespace UpdateConfig

theorem applyFields_flags_of_not_mem (fields : List (FieldName × Value))
    (g : Flags) (n : FieldName) (h : n ∉ fields.map Prod.fst) :
    (applyFields fields g).flags n = g n := by
  induction fields generalizing g with
  | nil => rfl
  | cons fv rest ih =>
    obtain ⟨name, v⟩ := fv
    simp only [List.map_cons, List.mem_cons, not_or] at h
    by_cases hw : name ∈ UPDATEABLE_FIELDS
    · simp only [applyFields, if_pos hw]
      rw [ih _ h.2, setattr_other _ _ _ _ h.1]
    · simp only [applyFields, if_neg hw]
      exact ih _ h.2

theorem applyFields_flags_of_not_updatable (fields : List (FieldName × Value))
    (g : Flags) (n : FieldName) (h : n ∉ UPDATEABLE_FIELDS) :
    (applyFields fields g).flags n = g n := by
  induction fields generalizing g with
  | nil => rfl
  | cons fv rest ih =>
    obtain ⟨name, v⟩ := fv
    by_cases hw : name ∈ UPDATEABLE_FIELDS
    · simp only [applyFields, if_pos hw]
      rw [ih]
      exact setattr_other _ _ _ _ (fun e => h (e ▸ hw))
    · simp only [applyFields, if_neg hw]
      exact ih _

theorem applyFields_flags_of_mem (fields : List (FieldName × Value))
    (g : Flags) (name : FieldName) (v : Value)
    (hnd : (fields.map Prod.fst).Nodup) (hmem : (name, v) ∈ fields)
    (hw : name ∈ UPDATEABLE_FIELDS) :
    (applyFields fields g).flags name = some v := by
  induction fields generalizing g with
  | nil => cases hmem
  | cons fv rest ih =>
    obtain ⟨n, w⟩ := fv
    simp only [List.map_cons, List.nodup_cons] at hnd
    rcases List.mem_cons.mp hmem with heq | htail
    · obtain ⟨rfl, rfl⟩ := Prod.mk.injEq .. ▸ heq
      simp only [applyFields, if_pos hw]
      rw [applyFields_flags_of_not_mem _ _ _ hnd.1]
      exact setattr_same _ _ _
    · have hne : name ≠ n := by
        intro e
        exact hnd.1 (e ▸ List.mem_map_of_mem Prod.fst htail)
      by_cases hnw : n ∈ UPDATEABLE_FIELDS
      · simp only [applyFields, if_pos hnw]
        exact ih _ hnd.2 htail
      · simp only [applyFields, if_neg hnw]
        exact ih _ hnd.2 htail

theorem applyFields_updated_keys (fields : List (FieldName × Value)) (g : Flags) :
    (applyFields fields g).updated_keys =
      (fields.map Prod.fst).filter (fun n => n ∈ UPDATEABLE_FIELDS) := by
  induction fields generalizing g with
  | nil => rfl
  | cons fv rest ih =>
    obtain ⟨name, v⟩ := fv
    by_cases hw : name ∈ UPDATEABLE_FIELDS
    · simp [applyFields, hw, ih]
    · simp [applyFields, hw, ih]

end UpdateConfig

/-- Events with no `send` contribute no messages. -/
theorem sentMessages_append (l1 l2 : List Event) :
    sentMessages (l1 ++ l2) = sentMessages l1 ++ sentMessages l2 := by
  induction l1 with
  | nil => rfl
  | cons e rest ih => cases e <;> simp [sentMessages, ih]

/-- Allocation events carry no messages. -/
theorem sentMessages_replicate_alloc (k b : Nat) :
    sentMessages (List.replicate k (Event.alloc b)) = [] := by
  induction k with
  | zero => rfl
  | succ k ih => simpa [List.replicate, sentMessages] using ih

/-- A concrete requester context for witnesses: an ordinary session. -/
def ctx0 : RequestCtx := ⟨"S:ABC", 7, 3⟩

/-- Concrete build constants for witnesses. -/
def cfg0 : ClientConfig := ⟨"GRR", 1, "2012-07-01"⟩

/-- All-unset initial flags for the config scenario. -/
def flags0 : Flags := fun _ => none

/-- The C2 scenario request: whitelisted `poll_min = 5` together with a
non-whitelisted field. -/
def scenarioFields : List (FieldName × Value) :=
  [("poll_min", Value.int 5), ("arbitrary_field", Value.str "x")]

/-- Concrete process state for witnesses. -/
def st0 : ProcState := ⟨100, 200, 3, 40, 50, 6, 7, [(1, 2, 3, 4)], [(5, 6, 7)]⟩

/-! ## Claims -/

/-- C1: For every UpdateConfig request (each protobuf field listed once),
every field whose name is in the fixed whitelist is applied to the
in-memory configuration exactly as the value given; every field whose
name is not in the whitelist is never applied; and a rejected field
does not abort processing — the applied keys are exactly the
whitelisted names of the request, in request order, whatever the order
of fields. -/
theorem update_config_whitelist (fields : List (FieldName × Value))
    (flags : Flags) (hnd : (fields.map Prod.fst).Nodup) :
    (∀ name v, (name, v) ∈ fields → name ∈ UpdateConfig.UPDATEABLE_FIELDS →
      (UpdateConfig.applyFields fields flags).flags name = some v) ∧
    (∀ name, name ∉ UpdateConfig.UPDATEABLE_FIELDS →
      (UpdateConfig.applyFields fields flags).flags name = flags name) ∧
    (UpdateConfig.applyFields fields flags).updated_keys =
      (fields.map Prod.fst).filter (fun n => n ∈ UpdateConfig.UPDATEABLE_FIELDS) :=
  ⟨fun _ _ hm hw => UpdateConfig.applyFields_flags_of_mem _ _ _ _ hnd hm hw,
   fun _ hn => UpdateConfig.applyFields_flags_of_not_updatable _ _ _ hn,
   UpdateConfig.applyFields_updated_keys _ _⟩

/-- Witness for C1 at the concrete scenario request. -/
theorem update_config_whitelist_witness :
    (scenarioFields.map Prod.fst).Nodup ∧
    (UpdateConfig.applyFields scenarioFields flags0).flags "poll_min"
      = some (Value.int 5) ∧
    (UpdateConfig.applyFields scenarioFields flags0).flags "arbitrary_field"
      = flags0 "arbitrary_field" :=
  ⟨by decide,
   (update_config_whitelist scenarioFields flags0 (by decide)).1
     "poll_min" (Value.int 5) (by decide) (by decide),
   (update_config_whitelist scenarioFields flags0 (by decide)).2.1
     "arbitrary_field" (by decide)⟩

/-- C2: after an UpdateConfig request carrying `poll_min = 5` and a
non-whitelisted field, a subsequent GetConfig reply payload reports
`poll_min = 5`; the non-whitelisted field is absent from the applied
state (its flag is still unset and it is not among the applied keys);
and no exception propagates out of the update (the persistence call
raises at most an I/O or OS error). -/
theorem update_then_get_config (p : UpdateConfig.PersistOutcome)
    (ctx : RequestCtx)
    (hp : p ≠ UpdateConfig.PersistOutcome.error UpdateConfig.Exn.other) :
    ("poll_min", Value.int 5) ∈
      GetConfig.buildConfig (UpdateConfig.Run scenarioFields flags0 p).flags ∧
    (sentMessages (GetConfig.Run ctx (UpdateConfig.Run scenarioFields flags0 p).flags)).map
        Message.payload
      = [Payload.grrConfig
          (GetConfig.buildConfig (UpdateConfig.Run scenarioFields flags0 p).flags)] ∧
    (UpdateConfig.Run scenarioFields flags0 p).flags "arbitrary_field" = none ∧
    (UpdateConfig.Run scenarioFields flags0 p).persist_arg = ["poll_min"] ∧
    (UpdateConfig.Run scenarioFields flags0 p).raised = none := by
  match p with
  | .ok => exact ⟨by decide, rfl, by decide, by decide, rfl⟩
  | .error .ioError => exact ⟨by decide, rfl, by decide, by decide, rfl⟩
  | .error .osError => exact ⟨by decide, rfl, by decide, by decide, rfl⟩
  | .error .other => exact absurd rfl hp

/-- Witness for C2 with a successful persistence outcome. -/
theorem update_then_get_config_witness :
    ("poll_min", Value.int 5) ∈
      GetConfig.buildConfig
        (UpdateConfig.Run scenarioFields flags0 UpdateConfig.PersistOutcome.ok).flags ∧
    (UpdateConfig.Run scenarioFields flags0 UpdateConfig.PersistOutcome.ok).raised
      = none :=
  ⟨(update_then_get_config UpdateConfig.PersistOutcome.ok ctx0 (by decide)).1,
   (update_then_get_config UpdateConfig.PersistOutcome.ok ctx0 (by decide)).2.2.2.2⟩

/-- C3: UpdateConfig attempts persistence for exactly the applied field
names (the whitelisted names of the request); a persistence failure by
I/O or OS error is swallowed — nothing propagates — and the in-memory
flags remain exactly as the field loop left them. -/
theorem update_config_persist_swallowed (fields : List (FieldName × Value))
    (flags : Flags) (p : UpdateConfig.PersistOutcome)
    (hp : p ≠ UpdateConfig.PersistOutcome.error UpdateConfig.Exn.other) :
    (UpdateConfig.Run fields flags p).persist_arg =
      (fields.map Prod.fst).filter (fun n => n ∈ UpdateConfig.UPDATEABLE_FIELDS) ∧
    (UpdateConfig.Run fields flags p).raised = none ∧
    ∀ n, (UpdateConfig.Run fields flags p).flags n =
      (UpdateConfig.applyFields fields flags).flags n := by
  refine ⟨UpdateConfig.applyFields_updated_keys _ _, ?_, fun _ => rfl⟩
  match p with
  | .ok => rfl
  | .error .ioError => rfl
  | .error .osError => rfl
  | .error .other => exact absurd rfl hp

/-- Witness for C3 under a failing (I/O error) persistence attempt. -/
theorem update_config_persist_swallowed_witness :
    (UpdateConfig.Run scenarioFields flags0
        (UpdateConfig.PersistOutcome.error UpdateConfig.Exn.ioError)).raised = none ∧
    (UpdateConfig.Run scenarioFields flags0
        (UpdateConfig.PersistOutcome.error UpdateConfig.Exn.ioError)).persist_arg
      = (scenarioFields.map Prod.fst).filter
          (fun n => n ∈ UpdateConfig.UPDATEABLE_FIELDS) :=
  ⟨(update_config_persist_swallowed scenarioFields flags0
      (UpdateConfig.PersistOutcome.error UpdateConfig.Exn.ioError) (by decide)).2.1,
   (update_config_persist_swallowed scenarioFields flags0
      (UpdateConfig.PersistOutcome.error UpdateConfig.Exn.ioError) (by decide)).1⟩

/-- C4: Kill emits exactly one reply, a STATUS message at priority
`HIGH_PRIORITY + 1`, then waits the fixed 10-second grace interval, and
then terminates the process with the fixed non-zero exit code 242 —
in that order, for every triggering request. -/
theorem kill_behaviour (ctx : RequestCtx) :
    ∃ m : Message,
      sentMessages (Kill.Run ctx) = [m] ∧
      m.message_type = MessageType.STATUS ∧
      m.priority = HIGH_PRIORITY + 1 ∧
      Kill.Run ctx = [Event.send m, Event.sleep 10, Event.exit 242] ∧
      (242 : Nat) ≠ 0 :=
  ⟨ActionPlugin.SendReply ctx (.grrStatus .OK) MessageType.STATUS
      (HIGH_PRIORITY + 1),
   rfl, rfl, rfl, rfl, by decide⟩

/-- C5: every well-known-addressed message emitted by SendStartupInfo or
GetClientStatsAuto carries `request_id = 0`, `response_id = 0` and the
fixed reserved session id of its channel ("W:Startup" / "W:Stats"),
whatever the triggering request context. -/
theorem well_known_addressing (ctx : RequestCtx) (cfg : ClientConfig)
    (boot : Nat) (ttl : Option Nat) (st : ProcState) :
    (∀ m ∈ sentMessages (SendStartupInfo.Run ctx cfg boot ttl),
      m.request_id = 0 ∧ m.response_id = 0 ∧
        m.session_id = SendStartupInfo.well_known_session_id ∧
        m.session_id = "W:Startup") ∧
    (∀ m ∈ sentMessages (GetClientStatsAuto.Run ctx st),
      m.request_id = 0 ∧ m.response_id = 0 ∧ m.session_id = "W:Stats") := by
  constructor
  · intro m hm
    simp only [SendStartupInfo.Run, sentMessages, List.mem_singleton] at hm
    subst hm
    exact ⟨rfl, rfl, rfl, rfl⟩
  · intro m hm
    simp only [GetClientStatsAuto.Run, sentMessages, List.mem_singleton] at hm
    subst hm
    exact ⟨rfl, rfl, rfl⟩

/-- Witness for C5 at the concrete startup message of a concrete context. -/
theorem well_known_addressing_witness :
    (GrrWorker.SendReply
        (Payload.startupInfo ⟨⟨"GRR", 1, "2012-07-01"⟩, 100000000⟩)
        "W:Startup" 0 0 LOW_PRIORITY MessageType.MESSAGE false
        (some 30)).request_id = 0 ∧
    (GrrWorker.SendReply
        (Payload.startupInfo ⟨⟨"GRR", 1, "2012-07-01"⟩, 100000000⟩)
        "W:Startup" 0 0 LOW_PRIORITY MessageType.MESSAGE false
        (some 30)).response_id = 0 ∧
    (GrrWorker.SendReply
        (Payload.startupInfo ⟨⟨"GRR", 1, "2012-07-01"⟩, 100000000⟩)
        "W:Startup" 0 0 LOW_PRIORITY MessageType.MESSAGE false
        (some 30)).session_id = SendStartupInfo.well_known_session_id ∧
    (GrrWorker.SendReply
        (Payload.startupInfo ⟨⟨"GRR", 1, "2012-07-01"⟩, 100000000⟩)
        "W:Startup" 0 0 LOW_PRIORITY MessageType.MESSAGE false
        (some 30)).session_id = "W:Startup" :=
  (well_known_addressing ctx0 cfg0 100 (some 30) st0).1 _ (by decide)

/-- C6: for every ttl value, SendStartupInfo emits one message addressed
to the well-known startup session — not the requester's session, when
that differs from the reserved constant — and the ttl is attached and
forwarded unmodified. -/
theorem startup_info_ttl (ctx : RequestCtx) (cfg : ClientConfig)
    (boot : Nat) (ttl : Option Nat) :
    ∃ m : Message,
      sentMessages (SendStartupInfo.Run ctx cfg boot ttl) = [m] ∧
      m.session_id = SendStartupInfo.well_known_session_id ∧
      m.ttl = ttl ∧
      (ctx.session_id ≠ SendStartupInfo.well_known_session_id →
        m.session_id ≠ ctx.session_id) :=
  ⟨GrrWorker.SendReply
      (.startupInfo
        ⟨⟨cfg.GRR_CLIENT_NAME, cfg.GRR_CLIENT_VERSION, cfg.GRR_CLIENT_BUILDTIME⟩,
         boot * 1000000⟩)
      SendStartupInfo.well_known_session_id 0 0 LOW_PRIORITY
      MessageType.MESSAGE false ttl,
   rfl, rfl, rfl, fun h e => h e.symm⟩

/-- Witness for C6 at ttl = 30 and a requester session distinct from the
reserved constant. -/
theorem startup_info_ttl_witness :
    ∃ m : Message,
      sentMessages (SendStartupInfo.Run ctx0 cfg0 100 (some 30)) = [m] ∧
      m.session_id = SendStartupInfo.well_known_session_id ∧
      m.ttl = some 30 ∧
      (ctx0.session_id ≠ SendStartupInfo.well_known_session_id →
        m.session_id ≠ ctx0.session_id) :=
  startup_info_ttl ctx0 cfg0 100 (some 30)

/-- C7: GetClientStatsAuto assembles a ClientStats payload identical to
the one GetClientStats assembles from the same state; the two differ
only in addressing — the Auto variant targets the well-known "W:Stats"
session with zero request and response ids, a lower priority, and the
fast-poll requirement cleared, while the normal variant replies to the
requester. -/
theorem stats_auto_refinement (ctx : RequestCtx) (st : ProcState) :
    ∃ mAuto mNorm : Message,
      sentMessages (GetClientStatsAuto.Run ctx st) = [mAuto] ∧
      sentMessages (GetClientStats.Run ctx st) = [mNorm] ∧
      mAuto.payload = mNorm.payload ∧
      mNorm.payload = Payload.clientStats (GetClientStats.buildResponse st) ∧
      mAuto.session_id = "W:Stats" ∧
      mAuto.request_id = 0 ∧
      mAuto.response_id = 0 ∧
      mAuto.priority < mNorm.priority ∧
      mAuto.require_fastpoll = false ∧
      mNorm.require_fastpoll = true ∧
      mNorm.session_id = ctx.session_id ∧
      mNorm.request_id = ctx.request_id ∧
      mAuto.message_type = mNorm.message_type :=
  ⟨GetClientStatsAuto.Send (GetClientStats.buildResponse st),
   GetClientStats.Send ctx (GetClientStats.buildResponse st),
   rfl, rfl, rfl, rfl, rfl, rfl, rfl,
   (by decide : LOW_PRIORITY < NORMAL_PRIORITY),
   rfl, rfl, rfl, rfl, rfl⟩

/-- C8 as stated is false: the LOW-priority messages of SendStartupInfo
(and GetClientStatsAuto) are outside {NORMAL, HIGH, HIGH + 1}. -/
theorem reply_priorities_counterexample :
    ¬ ∀ m ∈ sentMessages (SendStartupInfo.Run ctx0 cfg0 100 (some 30)),
        m.priority = NORMAL_PRIORITY ∨ m.priority = HIGH_PRIORITY ∨
          m.priority = HIGH_PRIORITY + 1 := by
  decide

/-- C8 amended: every reply message emitted by the actions carries a
priority drawn from {LOW, NORMAL, HIGH, HIGH + 1}. -/
theorem reply_priorities_amended (ctx : RequestCtx) (cfg : ClientConfig)
    (flags : Flags) (st : ProcState) (s hostname : String) (u : UnameResult)
    (boot : Nat) (ttl : Option Nat) :
    ∀ m : Message,
      (m ∈ sentMessages (Echo.Run ctx s) ∨
       m ∈ sentMessages (GetHostname.Run ctx hostname) ∨
       m ∈ sentMessages (GetPlatformInfo.Run ctx u) ∨
       m ∈ sentMessages (Kill.Run ctx) ∨
       m ∈ sentMessages (GetConfig.Run ctx flags) ∨
       m ∈ sentMessages (GetClientInfo.Run ctx cfg) ∨
       m ∈ sentMessages (GetClientStats.Run ctx st) ∨
       m ∈ sentMessages (GetClientStatsAuto.Run ctx st) ∨
       m ∈ sentMessages (SendStartupInfo.Run ctx cfg boot ttl)) →
      m.priority = LOW_PRIORITY ∨ m.priority = NORMAL_PRIORITY ∨
        m.priority = HIGH_PRIORITY ∨ m.priority = HIGH_PRIORITY + 1 := by
  intro m hm
  rcases hm with h | h | h | h | h | h | h | h | h <;>
    first
    | (simp only [Echo.Run, GetHostname.Run, GetPlatformInfo.Run, Kill.Run,
        GetConfig.Run, GetClientInfo.Run, GetClientStats.Run,
        GetClientStatsAuto.Run, SendStartupInfo.Run, sentMessages,
        List.mem_singleton] at h
       subst h
       simp [ActionPlugin.SendReplyDefault, ActionPlugin.SendReply,
         GetClientStats.Send, GetClientStatsAuto.Send, GrrWorker.SendReply,
         LOW_PRIORITY, NORMAL_PRIORITY, HIGH_PRIORITY])

/-- Witness for C8's amended theorem at the LOW-priority auto-stats
message of a concrete state. -/
theorem reply_priorities_amended_witness :
    (GetClientStatsAuto.Send (GetClientStats.buildResponse st0)).priority
        = LOW_PRIORITY ∨
    (GetClientStatsAuto.Send (GetClientStats.buildResponse st0)).priority
        = NORMAL_PRIORITY ∨
    (GetClientStatsAuto.Send (GetClientStats.buildResponse st0)).priority
        = HIGH_PRIORITY ∨
    (GetClientStatsAuto.Send (GetClientStats.buildResponse st0)).priority
        = HIGH_PRIORITY + 1 :=
  reply_priorities_amended ctx0 cfg0 flags0 st0 "" "" ⟨"", "", "", "", ""⟩
    100 (some 30) (GetClientStatsAuto.Send (GetClientStats.buildResponse st0))
    (Or.inr (Or.inr (Or.inr (Or.inr (Or.inr (Or.inr (Or.inr (Or.inl
      (by decide)))))))))

/-- C9: Echo emits exactly one reply whose payload equals the input
payload. -/
theorem echo_identity (ctx : RequestCtx) (args : String) :
    (sentMessages (Echo.Run ctx args)).map Message.payload
      = [Payload.printStr args] ∧
    (sentMessages (Echo.Run ctx args)).length = 1 :=
  ⟨rfl, rfl⟩

/-- C10: with a zero (or unset) integer argument the fault-injection
actions use their fixed defaults — Hang sleeps 6000, BusyHang spins 5,
Bloat allocates 1024 one-megabyte blocks; with a strictly positive
argument n they use n; and none of the three emits any reply. -/
theorem fault_injection_defaults (n : Nat) :
    (n = 0 →
      Hang.Run n = [Event.sleep 6000] ∧
      BusyHang.Run n = [Event.spin 5] ∧
      Bloat.Run n = List.replicate 1024 (Event.alloc 1048576)
        ++ [Event.sleep 60]) ∧
    (0 < n →
      Hang.Run n = [Event.sleep n] ∧
      BusyHang.Run n = [Event.spin n] ∧
      Bloat.Run n = List.replicate n (Event.alloc 1048576)
        ++ [Event.sleep 60]) ∧
    sentMessages (Hang.Run n) = [] ∧
    sentMessages (BusyHang.Run n) = [] ∧
    sentMessages (Bloat.Run n) = [] := by
  refine ⟨?_, ?_, rfl, rfl, ?_⟩
  · intro h
    subst h
    exact ⟨rfl, rfl, rfl⟩
  · intro h
    have hne : n ≠ 0 := Nat.pos_iff_ne_zero.mp h
    exact ⟨by simp [Hang.Run, pyOr, hne], by simp [BusyHang.Run, pyOr, hne],
      by simp [Bloat.Run, pyOr, hne]⟩
  · rw [Bloat.Run, sentMessages_append, sentMessages_replicate_alloc]
    rfl

/-- Witness for C10 at the positive argument 2. -/
theorem fault_injection_defaults_witness :
    (0 : Nat) < 2 ∧ Hang.Run 2 = [Event.sleep 2] ∧
      sentMessages (BusyHang.Run 2) = [] :=
  ⟨by decide, ((fault_injection_defaults 2).2.1 (by decide)).1,
   (fault_injection_defaults 2).2.2.2.1⟩

end GrrAdmin
